import Mathlib

/-!
Verification of the auth orchestration actions (user.actions.ts) of the
store-it repository.

The actions are a thin sequencing layer over an external identity service
(Appwrite) and a cookie store.  We embed them shallowly:

* the users collection of the document database is a `List UserDoc` in the
  state, and `databases.listDocuments` with an equality query is a `filter`;
* the cookie store is a `List Cookie` with `set`/`delete` operating by name;
* every external identity-service call (`createEmailToken`, `createSession`,
  `createSessionClient`/`account.get`, `deleteSession`) is an oracle
  argument of type `Except String _`: `.ok` is the value the platform
  returned, `.error` is a rejected promise (a thrown error);
* `redirect` (Next.js) throws a control-flow exception that terminates the
  action; we model termination of an action by the three-way `Outcome`:
  a returned value, a propagated error, or a redirect;
* to reason about how often the passcode send is invoked, the state carries
  the log `otpSends` of emails for which `sendEmailOTP` was called.
-/

/-- A document of the users collection: full name, email, avatar URL and the
identity-service account identifier (fields of `createDocument` in
`createAccount`). -/
structure UserDoc where
  fullName : String
  email : String
  avatar : String
  accountId : String
deriving Repr, DecidableEq

/-- The options record passed to `cookies().set`. -/
structure CookieOptions where
  path : String
  httpOnly : Bool
  sameSite : String
  secure : Bool
deriving Repr, DecidableEq

/-- One cookie of the cookie store. -/
structure Cookie where
  name : String
  value : String
  options : CookieOptions
deriving Repr, DecidableEq

/-- A session returned by `account.createSession`: its `$id` and its
`secret`. -/
structure Session where
  id : String
  secret : String
deriving Repr, DecidableEq

/-- The state an action execution can read and write: the users collection,
the cookie store, and the log of passcode-send invocations. -/
structure St where
  docs : List UserDoc
  cookies : List Cookie
  otpSends : List String
deriving Repr, DecidableEq

/-- How a server action terminates: a returned value, a thrown error
propagated to the caller, or a Next.js redirect to a route. -/
inductive Outcome (α : Type) where
  | ok (a : α)
  | error (e : String)
  | redirected (route : String)
deriving Repr, DecidableEq

/-- `cookies().set name value opts`: replaces any cookie of that name. -/
def cookieSet (store : List Cookie) (name value : String)
    (opts : CookieOptions) : List Cookie :=
  Cookie.mk name value opts :: store.filter (fun c => c.name != name)

/-- `cookies().delete name`. -/
def cookieDelete (store : List Cookie) (name : String) : List Cookie :=
  store.filter (fun c => c.name != name)

/-- Look a cookie up by name. -/
def cookieGet (store : List Cookie) (name : String) : Option Cookie :=
  store.find? (fun c => c.name == name)

/-- Models `parseStringify` from `lib/utils`:
`JSON.parse(JSON.stringify(value))`, a deep clone that is the identity on
the plain data these actions return. -/
def parseStringify {α : Type} (value : α) : α := value

/-- Modelled from the spec: `avatarPlaceholderUrl`, imported from the
constants module (not among the sources); the spec only calls it "a default
avatar", so its exact value is an opaque constant here. -/
def avatarPlaceholderUrl : String := "default-avatar-url"

/-- The options literal of the `cookies().set` call in `verifySecret`:
`path:"/"`, `httpOnly:true`, `sameSite:"strict"`, `secure:true`. -/
def sessionCookieOptions : CookieOptions :=
  { path := "/", httpOnly := true, sameSite := "strict", secure := true }

/-- `getUserByEmail`: `listDocuments` with `Query.equal("email",[email])`,
then `result.total > 0 ? result.documents[0] : null`. -/
def getUserByEmail (docs : List UserDoc) (email : String) : Option UserDoc :=
  (docs.filter (fun d => d.email == email)).head?

/-- `sendEmailOTP`: calls `account.createEmailToken(ID.unique(), email)` and
returns `session.userId`; on a thrown error, `handleError` logs and
re-throws.  The invocation is appended to the `otpSends` log whatever the
outcome.  `tokenOracle` is the platform's response to `createEmailToken`
(`.ok userId` or a rejection). -/
def sendEmailOTP (tokenOracle : Except String String) (email : String)
    (s : St) : Except String String × St :=
  let s1 := { s with otpSends := s.otpSends ++ [email] }
  match tokenOracle with
  | .ok userId => (.ok userId, s1)
  | .error e => (.error e, s1)

/-- `createAccount`: looks the profile up by email, sends the OTP, throws
`"Failed to send an OTP"` if the returned account id is falsy (the empty
string), creates the profile document only when the lookup found none, and
returns `parseStringify {accountId}`. -/
def createAccount (tokenOracle : Except String String)
    (fullName email : String) (s : St) : Outcome String × St :=
  let existingUser := getUserByEmail s.docs email
  match sendEmailOTP tokenOracle email s with
  | (.error e, s1) => (.error e, s1)
  | (.ok accountId, s1) =>
    if accountId = "" then
      (.error "Failed to send an OTP", s1)
    else
      match existingUser with
      | some _ => (.ok (parseStringify accountId), s1)
      | none =>
        let doc : UserDoc :=
          { fullName := fullName, email := email,
            avatar := avatarPlaceholderUrl, accountId := accountId }
        (.ok (parseStringify accountId), { s1 with docs := s1.docs ++ [doc] })

/-- `verifySecret`: calls `account.createSession(accountId, password)`
(`sessionOracle` is the platform's response); on success sets the
`"appwrite-session"` cookie to the session secret with the security options
and returns `parseStringify {sessionId: session.$id}`; on failure
`handleError` logs and re-throws, leaving the state untouched. -/
def verifySecret (sessionOracle : Except String Session)
    (accountId password : String) (s : St) : Outcome String × St :=
  match sessionOracle with
  | .ok session =>
    let cookies1 :=
      cookieSet s.cookies "appwrite-session" session.secret sessionCookieOptions
    (.ok (parseStringify session.id), { s with cookies := cookies1 })
  | .error e => (.error e, s)

/-- `getCurrentUser`: resolves the current identity via the session client
(`identityOracle` is the response of `createSessionClient` + `account.get`,
`.ok` carrying the identity's `$id`); there is no try/catch, so a failed
lookup propagates.  Then `listDocuments` with
`Query.equal("accountId", result.$id)`: `null` when `total <= 0`, otherwise
the first matching document. -/
def getCurrentUser (identityOracle : Except String String) (s : St) :
    Outcome (Option UserDoc) × St :=
  match identityOracle with
  | .error e => (.error e, s)
  | .ok accId =>
    match (s.docs.filter (fun d => d.accountId == accId)).head? with
    | none => (.ok none, s)
    | some d => (.ok (parseStringify (some d)), s)

/-- `signOutUser`: `createSessionClient` (whose failure, e.g. no session,
propagates — it is outside the try), then
`try { deleteSession("current"); cookies().delete("appwrite-session") }
catch { handleError re-throws } finally { redirect("/sign-in") }`.
When `deleteSession` rejects, control jumps to the catch before the cookie
delete runs, so the cookie survives; the redirect in the finally block then
supersedes the propagating error, so the action still ends redirected. -/
def signOutUser (clientOracle deleteOracle : Except String Unit) (s : St) :
    Outcome Unit × St :=
  match clientOracle with
  | .error e => (.error e, s)
  | .ok _ =>
    match deleteOracle with
    | .ok _ =>
      (.redirected "/sign-in",
        { s with cookies := cookieDelete s.cookies "appwrite-session" })
    | .error _ => (.redirected "/sign-in", s)

/-- The structured result of `signInUser`: `{accountId}` on success (no
error key), `{accountId: null, error: "User not found"}` otherwise. -/
structure SignInResult where
  accountId : Option String
  error : Option String
deriving Repr, DecidableEq

/-- `signInUser`: inside a try (whose catch re-throws), looks the profile up
by email; if found, awaits `sendEmailOTP` (discarding its value) and returns
`parseStringify {accountId: existingUser.accountId}`; if not, returns
`parseStringify {accountId: null, error: "User not found"}`. -/
def signInUser (tokenOracle : Except String String) (email : String)
    (s : St) : Outcome SignInResult × St :=
  match getUserByEmail s.docs email with
  | some existingUser =>
    match sendEmailOTP tokenOracle email s with
    | (.ok _, s1) =>
      (.ok (parseStringify { accountId := some existingUser.accountId,
                             error := none }), s1)
    | (.error e, s1) => (.error e, s1)
  | none =>
    (.ok (parseStringify { accountId := none, error := some "User not found" }), s)

/-- Number of profile documents carrying a given email. -/
def emailCount (docs : List UserDoc) (email : String) : Nat :=
  (docs.filter (fun d => d.email == email)).length

/-- Each unique email has at most one profile document. -/
def uniqueEmails (docs : List UserDoc) : Prop :=
  ∀ email, emailCount docs email ≤ 1

/-- One invocation of an exported action, bundling its inputs and the
platform's responses to the external calls it makes. -/
inductive Op where
  | createAccount (tokenOracle : Except String String) (fullName email : String)
  | verifySecret (sessionOracle : Except String Session) (accountId password : String)
  | getCurrentUser (identityOracle : Except String String)
  | signOutUser (clientOracle deleteOracle : Except String Unit)
  | signInUser (tokenOracle : Except String String) (email : String)

/-- The state after executing one action. -/
def runOp (op : Op) (s : St) : St :=
  match op with
  | .createAccount tokenOracle fullName email => (createAccount tokenOracle fullName email s).2
  | .verifySecret sessionOracle accountId password => (verifySecret sessionOracle accountId password s).2
  | .getCurrentUser identityOracle => (getCurrentUser identityOracle s).2
  | .signOutUser clientOracle deleteOracle => (signOutUser clientOracle deleteOracle s).2
  | .signInUser tokenOracle email => (signInUser tokenOracle email s).2

/-- The state after executing a sequence of actions. -/
def runOps (ops : List Op) (s : St) : St :=
  ops.foldl (fun s1 op => runOp op s1) s

/-- A sample profile document, for concrete evaluations. -/
def adaDoc : UserDoc :=
  { fullName := "Ada", email := "ada@mail.test", avatar := "av",
    accountId := "acc-ada" }

/-- A sample state whose users collection holds exactly `adaDoc`. -/
def stAda : St := { docs := [adaDoc], cookies := [], otpSends := [] }

/-- The empty state. -/
def stEmpty : St := { docs := [], cookies := [], otpSends := [] }

/-- A sample state holding only the session cookie. -/
def stWithSession : St :=
  { docs := [],
    cookies := [{ name := "appwrite-session", value := "sek",
                  options := sessionCookieOptions }],
    otpSends := [] }

/-- Helper: a cookie looked up by name is gone after `cookieDelete` of that
name. -/
theorem cookieGet_cookieDelete (store : List Cookie) (name : String) :
    cookieGet (cookieDelete store name) name = none := by
  simp only [cookieGet, cookieDelete, List.find?_eq_none, List.mem_filter]
  intro c hc
  simpa using hc.2

/-- Helper: the head of a filtered list satisfies the filtering predicate. -/
theorem head?_filter_prop {α : Type} (p : α → Bool) (l : List α) (a : α)
    (h : (l.filter p).head? = some a) : p a = true := by
  cases hl : l.filter p with
  | nil => rw [hl] at h; cases h
  | cons x xs =>
    rw [hl] at h
    have hx : x ∈ l.filter p := hl ▸ List.mem_cons_self x xs
    injection h with h1
    rw [← h1]
    exact (List.mem_filter.mp hx).2

/-- Claim C1, counterexample: in an execution where the upstream
session-deletion call fails, the `"appwrite-session"` cookie is still
present after `signOutUser` completes — the cookie delete sits inside the
try block, before the catch, so it is skipped when `deleteSession`
rejects. -/
theorem signOut_cookie_counterexample :
    cookieGet (signOutUser (.ok ()) (.error "network failure")
        stWithSession).2.cookies "appwrite-session"
      = some { name := "appwrite-session", value := "sek",
               options := sessionCookieOptions } := by
  decide

/-- Claim C1, amended: after `signOutUser`, the session cookie is absent
when the session-deletion call succeeds; when that call fails, the cleanup
never reaches the cookie delete and the cookie store is unchanged (only the
redirect in the finally path runs). -/
theorem signOut_cookie_amended (s : St) (e : String) :
    cookieGet (signOutUser (.ok ()) (.ok ()) s).2.cookies "appwrite-session"
        = none
    ∧ (signOutUser (.ok ()) (.error e) s).2 = s := by
  exact ⟨cookieGet_cookieDelete s.cookies "appwrite-session", rfl⟩

/-- Claim C2: whatever the outcome of the session-deletion call (the
`deleteOracle`), `signOutUser` terminates with a redirect to `"/sign-in"`:
the `redirect` sits in the finally block, so it runs after the success path
and also supersedes the error re-thrown by the catch. -/
theorem signOut_always_redirects (deleteOracle : Except String Unit)
    (s : St) :
    (signOutUser (.ok ()) deleteOracle s).1 = .redirected "/sign-in" := by
  cases deleteOracle <;> rfl

/-- Claim C3: when session creation succeeds, `verifySecret` sets the
`"appwrite-session"` cookie to the session secret with
`path="/", httpOnly=true, sameSite="strict", secure=true` and returns the
session identifier, non-empty whenever the platform issues a non-empty one;
when session creation fails, `verifySecret` throws that error and leaves
the whole state (in particular the cookie store) unchanged. -/
theorem verifySecret_spec (accountId password : String) (sess : Session)
    (e : String) (s : St) (hid : sess.id ≠ "") :
    ((verifySecret (.ok sess) accountId password s).1 = .ok sess.id
      ∧ sess.id ≠ ""
      ∧ cookieGet (verifySecret (.ok sess) accountId password s).2.cookies
            "appwrite-session"
          = some { name := "appwrite-session", value := sess.secret,
                   options := sessionCookieOptions })
    ∧ ((verifySecret (.error e) accountId password s).1 = .error e
      ∧ (verifySecret (.error e) accountId password s).2 = s) := by
  refine ⟨⟨rfl, hid, ?_⟩, rfl, rfl⟩
  show cookieGet
      (cookieSet s.cookies "appwrite-session" sess.secret sessionCookieOptions)
      "appwrite-session" = _
  unfold cookieGet cookieSet
  rw [List.find?_cons_of_pos _ (by simp)]

/-- Claim C3, witness at a concrete session and state. -/
theorem verifySecret_spec_witness :
    cookieGet (verifySecret (.ok { id := "sid1", secret := "sek1" })
        "acc-ada" "123456" stEmpty).2.cookies "appwrite-session"
      = some { name := "appwrite-session", value := "sek1",
               options := sessionCookieOptions } :=
  (verifySecret_spec "acc-ada" "123456" { id := "sid1", secret := "sek1" }
    "boom" stEmpty (by decide)).1.2.2

/-- Claim C4: with a successful passcode send returning a non-empty account
identifier, `createAccount` on an email with no existing profile returns
that (non-empty) identifier and appends exactly one profile document
carrying the email, the full name, the default avatar URL and the account
identifier; on an email that already has a profile it returns the
identifier and leaves the users collection unchanged. -/
theorem createAccount_profiles (fullName email accountId : String) (s : St)
    (hid : accountId ≠ "") :
    (getUserByEmail s.docs email = none →
      (createAccount (.ok accountId) fullName email s).1 = .ok accountId
      ∧ accountId ≠ ""
      ∧ (createAccount (.ok accountId) fullName email s).2.docs
          = s.docs ++ [{ fullName := fullName, email := email,
                         avatar := avatarPlaceholderUrl,
                         accountId := accountId }])
    ∧ (∀ u, getUserByEmail s.docs email = some u →
      (createAccount (.ok accountId) fullName email s).1 = .ok accountId
      ∧ (createAccount (.ok accountId) fullName email s).2.docs = s.docs) := by
  constructor
  · intro hnone
    refine ⟨?_, hid, ?_⟩ <;>
      simp [createAccount, sendEmailOTP, hnone, hid, parseStringify]
  · intro u hu
    refine ⟨?_, ?_⟩ <;>
      simp [createAccount, sendEmailOTP, hu, hid, parseStringify]

/-- Claim C4, witness: creating an account for a fresh email in the empty
store yields exactly the one new profile document. -/
theorem createAccount_profiles_witness :
    (createAccount (.ok "acc1") "Ada" "ada@mail.test" stEmpty).2.docs
      = [{ fullName := "Ada", email := "ada@mail.test",
           avatar := avatarPlaceholderUrl, accountId := "acc1" }] :=
  ((createAccount_profiles "Ada" "ada@mail.test" "acc1" stEmpty
    (by decide)).1 (by decide)).2.2

/-- Claim C5: every `createAccount` call invokes the passcode send exactly
once — the `otpSends` log grows by exactly the one email, whatever the
platform's response and whether or not the profile already exists. -/
theorem createAccount_sends_one_otp (tokenOracle : Except String String)
    (fullName email : String) (s : St) :
    (createAccount tokenOracle fullName email s).2.otpSends
      = s.otpSends ++ [email] := by
  cases tokenOracle with
  | error e => rfl
  | ok accountId =>
    by_cases h : accountId = "" <;>
      cases hgu : getUserByEmail s.docs email <;>
        simp [createAccount, sendEmailOTP, h, hgu]

/-- Claim C6: when passcode issuance fails — the `createEmailToken` call
rejects, or it returns a falsy (empty) account identifier —
`createAccount` throws (the propagated platform error, resp. the explicit
`"Failed to send an OTP"` error) and the users collection is unchanged: the
profile creation sits after the failure checks. -/
theorem createAccount_otp_failure (fullName email e : String) (s : St) :
    ((createAccount (.error e) fullName email s).1 = .error e
      ∧ (createAccount (.error e) fullName email s).2.docs = s.docs)
    ∧ ((createAccount (.ok "") fullName email s).1
          = .error "Failed to send an OTP"
      ∧ (createAccount (.ok "") fullName email s).2.docs = s.docs) := by
  refine ⟨⟨rfl, rfl⟩, ?_, ?_⟩ <;> simp [createAccount, sendEmailOTP]

/-- Claim C7: `getCurrentUser` propagates a failed session/identity lookup
unchanged (there is no try/catch around it); with a resolved identity whose
account identifier matches no profile document it returns `none`; with a
matching profile it returns the first matching document, whose `accountId`
field equals the session's account identifier. -/
theorem getCurrentUser_spec (e accId : String) (s : St) :
    ((getCurrentUser (.error e) s).1 = .error e
      ∧ (getCurrentUser (.error e) s).2 = s)
    ∧ (s.docs.filter (fun d => d.accountId == accId) = [] →
        (getCurrentUser (.ok accId) s).1 = .ok none)
    ∧ (∀ d, (s.docs.filter (fun d1 => d1.accountId == accId)).head? = some d →
        (getCurrentUser (.ok accId) s).1 = .ok (some d)
        ∧ d.accountId = accId) := by
  refine ⟨⟨rfl, rfl⟩, ?_, ?_⟩
  · intro hnil
    simp [getCurrentUser, hnil]
  · intro d hd
    refine ⟨?_, ?_⟩
    · simp [getCurrentUser, hd, parseStringify]
    · have hp := head?_filter_prop _ _ _ hd
      simpa using hp

/-- Claim C7, witness: with the session resolving to `adaDoc`'s account
identifier, `getCurrentUser` returns `adaDoc`. -/
theorem getCurrentUser_spec_witness :
    (getCurrentUser (.ok "acc-ada") stAda).1 = .ok (some adaDoc)
    ∧ adaDoc.accountId = "acc-ada" :=
  (getCurrentUser_spec "no session" "acc-ada" stAda).2.2 adaDoc (by decide)

/-- Claim C8: for an email with an existing profile, `signInUser` logs
exactly one passcode send whatever the platform's response, and — when the
send succeeds — returns `{accountId}` with the profile's account
identifier; for an email with no profile it returns the structured
`{accountId: null, error: "User not found"}` result without throwing and
leaves the state untouched (zero passcode sends). -/
theorem signInUser_spec (tokenOracle : Except String String)
    (email userId : String) (s : St) :
    (∀ u, getUserByEmail s.docs email = some u →
      (signInUser tokenOracle email s).2.otpSends = s.otpSends ++ [email]
      ∧ (signInUser (.ok userId) email s).1
          = .ok { accountId := some u.accountId, error := none })
    ∧ (getUserByEmail s.docs email = none →
      (signInUser tokenOracle email s).1
          = .ok { accountId := none, error := some "User not found" }
      ∧ (signInUser tokenOracle email s).2 = s) := by
  constructor
  · intro u hu
    constructor
    · cases tokenOracle <;> simp [signInUser, sendEmailOTP, hu]
    · simp [signInUser, sendEmailOTP, hu, parseStringify]
  · intro hnone
    exact ⟨by simp [signInUser, hnone, parseStringify],
           by simp [signInUser, hnone]⟩

/-- Claim C8, witness: a known email returns its profile's account
identifier after one send; an unknown email returns the structured
not-found result with no state change. -/
theorem signInUser_spec_witness :
    ((signInUser (.ok "uX") "ada@mail.test" stAda).2.otpSends
        = ["ada@mail.test"]
      ∧ (signInUser (.ok "uX") "ada@mail.test" stAda).1
          = .ok { accountId := some "acc-ada", error := none })
    ∧ ((signInUser (.ok "uX") "bob@mail.test" stAda).1
          = .ok { accountId := none, error := some "User not found" }
      ∧ (signInUser (.ok "uX") "bob@mail.test" stAda).2 = stAda) :=
  ⟨(signInUser_spec (.ok "uX") "ada@mail.test" "uX" stAda).1 adaDoc
      (by decide),
   (signInUser_spec (.ok "uX") "bob@mail.test" "uX" stAda).2 (by decide)⟩

/-- Claim C10: for an email with an existing profile, the account
identifier `signInUser` returns is the `accountId` field stored in that
profile document, and the user identifier the passcode send returns is
discarded: the result is the same for any two successful send responses. -/
theorem signInUser_discards_otp_userId (email userId1 userId2 : String)
    (s : St) (u : UserDoc) (h : getUserByEmail s.docs email = some u) :
    (signInUser (.ok userId1) email s).1
        = .ok { accountId := some u.accountId, error := none }
    ∧ (signInUser (.ok userId1) email s).1
        = (signInUser (.ok userId2) email s).1 := by
  constructor <;> simp [signInUser, sendEmailOTP, h, parseStringify]

/-- Claim C10, witness: the sign-in result carries `adaDoc.accountId`, not
the send's `"other-user-id"` response. -/
theorem signInUser_discards_otp_userId_witness :
    (signInUser (.ok "other-user-id") "ada@mail.test" stAda).1
        = .ok { accountId := some "acc-ada", error := none }
    ∧ (signInUser (.ok "other-user-id") "ada@mail.test" stAda).1
        = (signInUser (.ok "second-user-id") "ada@mail.test" stAda).1 :=
  signInUser_discards_otp_userId "ada@mail.test" "other-user-id"
    "second-user-id" stAda adaDoc (by decide)

/-- Helper: `emailCount` distributes over append. -/
theorem emailCount_append (docs1 docs2 : List UserDoc) (email : String) :
    emailCount (docs1 ++ docs2) email
      = emailCount docs1 email + emailCount docs2 email := by
  simp [emailCount, List.filter_append]

/-- Helper: when the lookup by email finds nothing, no document carries
that email. -/
theorem getUserByEmail_none_count {docs : List UserDoc} {email : String}
    (h : getUserByEmail docs email = none) : emailCount docs email = 0 := by
  unfold getUserByEmail at h
  rw [List.head?_eq_none_iff] at h
  simp [emailCount, h]

/-- Helper: `emailCount` of a one-document collection. -/
theorem emailCount_singleton (d : UserDoc) (em : String) :
    emailCount [d] em = if d.email == em then 1 else 0 := by
  cases hb : d.email == em <;> simp [emailCount, List.filter, hb]

/-- Helper: `createAccount` preserves email uniqueness of the users
collection — it creates a document only when the lookup by that email
found none. -/
theorem createAccount_preserves_uniqueEmails
    (tokenOracle : Except String String) (fullName email : String) (s : St)
    (h : uniqueEmails s.docs) :
    uniqueEmails (createAccount tokenOracle fullName email s).2.docs := by
  cases tokenOracle with
  | error e => exact h
  | ok accountId =>
    by_cases hacc : accountId = ""
    · simpa [createAccount, sendEmailOTP, hacc] using h
    · cases hgu : getUserByEmail s.docs email with
      | some u => simpa [createAccount, sendEmailOTP, hacc, hgu] using h
      | none =>
        have hdocs : (createAccount (.ok accountId) fullName email s).2.docs
            = s.docs ++ [{ fullName := fullName, email := email,
                           avatar := avatarPlaceholderUrl,
                           accountId := accountId }] := by
          simp [createAccount, sendEmailOTP, hacc, hgu]
        intro em
        rw [hdocs, emailCount_append, emailCount_singleton]
        by_cases hem : email = em
        · subst hem
          rw [getUserByEmail_none_count hgu]
          simp
        · simpa [hem] using h em

/-- Helper: no action other than `createAccount` changes the users
collection. -/
theorem runOp_docs_eq (op : Op) (s : St) :
    (∀ tokenOracle fullName email,
        op ≠ .createAccount tokenOracle fullName email) →
    (runOp op s).docs = s.docs := by
  intro hne
  cases op with
  | createAccount tokenOracle fullName email =>
    exact absurd rfl (hne tokenOracle fullName email)
  | verifySecret sessionOracle accountId password =>
    cases sessionOracle <;> rfl
  | getCurrentUser identityOracle =>
    cases identityOracle with
    | error e => rfl
    | ok accId =>
      simp only [runOp, getCurrentUser]
      cases (s.docs.filter (fun d => d.accountId == accId)).head? <;> rfl
  | signOutUser clientOracle deleteOracle =>
    cases clientOracle <;> cases deleteOracle <;> rfl
  | signInUser tokenOracle email =>
    simp only [runOp, signInUser]
    cases getUserByEmail s.docs email with
    | none => rfl
    | some u => cases tokenOracle <;> rfl

/-- Helper: one action preserves email uniqueness. -/
theorem runOp_preserves_uniqueEmails (op : Op) (s : St)
    (h : uniqueEmails s.docs) : uniqueEmails (runOp op s).docs := by
  cases hop : op with
  | createAccount tokenOracle fullName email =>
    exact createAccount_preserves_uniqueEmails tokenOracle fullName email s h
  | verifySecret sessionOracle accountId password =>
    rw [runOp_docs_eq _ s (by intro a b c hcon; cases hcon)]; exact h
  | getCurrentUser identityOracle =>
    rw [runOp_docs_eq _ s (by intro a b c hcon; cases hcon)]; exact h
  | signOutUser clientOracle deleteOracle =>
    rw [runOp_docs_eq _ s (by intro a b c hcon; cases hcon)]; exact h
  | signInUser tokenOracle email =>
    rw [runOp_docs_eq _ s (by intro a b c hcon; cases hcon)]; exact h

/-- Claim C9: starting from any state in which each email has at most one
profile document, any sequence of exported actions — with any platform
responses — leaves each email with at most one profile document:
`createAccount` is the only action that writes to the users collection, and
it appends a document only when the lookup by that email found none. -/
theorem runOps_preserves_uniqueEmails (ops : List Op) (s : St)
    (h : uniqueEmails s.docs) : uniqueEmails (runOps ops s).docs := by
  induction ops generalizing s with
  | nil => exact h
  | cons op rest ih =>
    exact ih (runOp op s) (runOp_preserves_uniqueEmails op s h)

/-- Claim C9, witness: two `createAccount` calls for the same email from
the empty store still leave that email with at most one profile. -/
theorem runOps_preserves_uniqueEmails_witness :
    uniqueEmails (runOps
      [Op.createAccount (.ok "acc1") "Ada" "ada@mail.test",
       Op.createAccount (.ok "acc2") "Ada" "ada@mail.test"]
      stEmpty).docs :=
  runOps_preserves_uniqueEmails _ stEmpty
    (fun email => by simp [stEmpty, emailCount])
